import Mathlib

/-!
Shallow embedding of `crates/blenvy/src/blueprints/spawn_from_blueprints.rs`:
the per-instance blueprint instantiation pipeline (asset-load tracking,
scene spawning, sub-blueprint hierarchy tracking, component transfer,
finalization and hot reload), together with theorems checking the
specification's claims against it.

Conventions: Bevy `Entity` ids are modelled as a wrapped `Nat`;
`f32` progress is modelled over `ℚ` (the division `loaded_amount / total`
with exact arithmetic); the ECS side effects of a system are reified as
explicit result records (which components a `Commands` batch inserts or
removes, which events are sent).
-/

/-- A Bevy entity id (modelled as a plain natural number). -/
structure Entity where
  id : Nat
deriving DecidableEq, Repr

/-- `Entity::PLACEHOLDER` — Bevy's reserved placeholder id, `u32::MAX`. -/
def Entity.PLACEHOLDER : Entity := ⟨4294967295⟩

/-- An untyped asset id, as produced by `asset_server.load_untyped`. -/
structure AssetId where
  raw : Nat
deriving DecidableEq, Repr

/-- Bevy `LoadState` as observed through `asset_server.load_state`. -/
inductive LoadState where
  | notLoaded
  | loading
  | loaded
  | failed
deriving DecidableEq, Repr

/-- The asset-server facts the systems in this file consult: for an asset id,
whether `is_loaded_with_dependencies` holds and what `load_state` returns. -/
structure AssetServerView where
  isLoadedWithDependencies : AssetId → Bool
  loadState : AssetId → LoadState

/-- `AssetLoadTracker` (field shape from its uses in
`spawn_from_blueprints.rs`: `name`, `path`, `id`, `loaded`; the untyped
handle itself carries no information beyond `id` and is omitted). -/
structure AssetLoadTracker where
  name : String
  path : String
  id : AssetId
  loaded : Bool
deriving DecidableEq, Repr

/-- `BlueprintAssetsLoadState` (field shape from its uses in
`spawn_from_blueprints.rs`: `all_loaded`, `asset_infos`, `progress`;
`progress` is `f32` in the source, modelled exactly over `ℚ`). -/
structure BlueprintAssetsLoadState where
  all_loaded : Bool
  asset_infos : List AssetLoadTracker
  progress : ℚ
deriving DecidableEq, Repr

/-- One tracker entry is resolved this tick: the source computes
`loaded = asset_server.is_loaded_with_dependencies(id)` and
`failed = (load_state(id) matches Failed)`, and counts the entry when
`loaded || failed`. -/
def trackerResolved (server : AssetServerView) (t : AssetLoadTracker) : Bool :=
  server.isLoadedWithDependencies t.id ||
    (match server.loadState t.id with
      | LoadState.failed => true
      | _ => false)

/-- `BlueprintEvent` (the three lifecycle notification variants). -/
inductive BlueprintEvent where
  | assetsLoaded (entity : Entity) (blueprint_name : String) (blueprint_path : String)
  | spawned (entity : Entity) (blueprint_name : String) (blueprint_path : String)
  | instanceReady (entity : Entity) (blueprint_name : String) (blueprint_path : String)
deriving DecidableEq, Repr

/-- Result of running `blueprints_check_assets_loading` on one instance:
the updated `BlueprintAssetsLoadState` plus the component changes the
`Commands` batch applies to the entity and the events sent for it. -/
structure CheckAssetsResult where
  state : BlueprintAssetsLoadState
  insertedBlueprintAssetsLoaded : Bool
  removedBlueprintAssetsNotLoaded : Bool
  events : List BlueprintEvent
deriving DecidableEq, Repr

/-- `blueprints_check_assets_loading`, per instance (the system loops this
body over every entity that has `BlueprintAssetsLoadState` and
`BlueprintAssetsNotLoaded`): recompute each entry's `loaded` flag from the
asset server, recompute `progress = loaded_amount / total`, and on
`all_loaded` set the flag, insert `BlueprintAssetsLoaded` and remove
`BlueprintAssetsNotLoaded`. -/
def blueprints_check_assets_loading (server : AssetServerView)
    (s : BlueprintAssetsLoadState) : CheckAssetsResult :=
  let infos := s.asset_infos.map (fun t => { t with loaded := trackerResolved server t })
  let total := s.asset_infos.length
  let loaded_amount := s.asset_infos.countP (fun t => trackerResolved server t)
  let all_loaded := s.asset_infos.all (fun t => trackerResolved server t)
  let progress : ℚ := (loaded_amount : ℚ) / (total : ℚ)
  { state :=
      { all_loaded := if all_loaded then true else s.all_loaded
        asset_infos := infos
        progress := progress }
    insertedBlueprintAssetsLoaded := all_loaded
    removedBlueprintAssetsNotLoaded := all_loaded
    -- the `BlueprintEvent::AssetsLoaded` send at this point is commented
    -- out in the source, so no event is ever produced here
    events := [] }

/-- Input of `blueprints_prepare_spawn` for one newly detected spawn
request: whether the blueprint's own (root) asset is already loaded with
dependencies, plus the auxiliary assets declared under the
`BlueprintAssets` key of the gltf scene extras, each with its
already-loaded status. -/
structure PrepareSpawnInput where
  blueprintName : String
  blueprintPath : String
  rootAssetId : AssetId
  rootLoaded : Bool
  auxAssets : List (AssetLoadTracker × Bool)
deriving DecidableEq, Repr

/-- The not-yet-loaded entry list `asset_infos` built by
`blueprints_prepare_spawn`: the blueprint's root asset when not already
loaded, then every declared auxiliary asset that is not already loaded. -/
def prepareAssetInfos (inp : PrepareSpawnInput) : List AssetLoadTracker :=
  (if inp.rootLoaded then [] else
    [{ name := inp.blueprintName, path := inp.blueprintPath,
       id := inp.rootAssetId, loaded := false }]) ++
  (inp.auxAssets.filterMap (fun p => if p.2 then none else some { p.1 with loaded := false }))

/-- Component changes `blueprints_prepare_spawn` applies to one request. -/
structure PrepareSpawnResult where
  attachedTracker : Option BlueprintAssetsLoadState
  insertedBlueprintAssetsNotLoaded : Bool
  insertedBlueprintAssetsLoaded : Bool
  insertedBlueprintSpawning : Bool
deriving DecidableEq, Repr

/-- `blueprints_prepare_spawn`, per request: when the computed entry list
is non-empty, insert a `BlueprintAssetsLoadState` tracker carrying it plus
`BlueprintAssetsNotLoaded`; otherwise insert `BlueprintAssetsLoaded`
directly and no tracker.  `BlueprintSpawning` is inserted either way. -/
def blueprints_prepare_spawn (inp : PrepareSpawnInput) : PrepareSpawnResult :=
  let asset_infos := prepareAssetInfos inp
  if asset_infos.isEmpty then
    { attachedTracker := none
      insertedBlueprintAssetsNotLoaded := false
      insertedBlueprintAssetsLoaded := true
      insertedBlueprintSpawning := true }
  else
    { attachedTracker := some { all_loaded := false, asset_infos := asset_infos, progress := 0 }
      insertedBlueprintAssetsNotLoaded := true
      insertedBlueprintAssetsLoaded := false
      insertedBlueprintSpawning := true }

/-- The inputs of `blueprints_assets_ready` relevant to its branching for
one instance entering `BlueprintAssetsLoaded`: presence of
`AddToGameWorld`, presence of a prior `Parent`, presence of
`HideUntilReady`, and the current children (snapshotted into
`OriginalChildren`). -/
structure AssetsReadyInput where
  entity : Entity
  addToGameWorld : Bool
  hasOriginalParent : Bool
  hideUntilReady : Bool
  currentChildren : List Entity
deriving DecidableEq, Repr

/-- Component changes `blueprints_assets_ready` applies to one instance. -/
structure AssetsReadyResult where
  originalChildrenSnapshot : List Entity
  insertedVisibilityHidden : Bool
  reparentedUnderGameWorld : Bool
deriving DecidableEq, Repr

/-- `blueprints_assets_ready`, per instance: snapshot the current children
into `OriginalChildren`, hide the entity when `HideUntilReady` is present,
and reparent the entity under the `GameWorldTag` entity only when
`add_to_world.is_some() && original_parent.is_some()`. -/
def blueprints_assets_ready (inp : AssetsReadyInput) : AssetsReadyResult :=
  { originalChildrenSnapshot := inp.currentChildren
    insertedVisibilityHidden := inp.hideUntilReady
    reparentedUnderGameWorld := inp.addToGameWorld && inp.hasOriginalParent }

/-- The `sub_blueprint_instances` map of `SubBlueprintsSpawnTracker`,
modelled as an association list from entity to completion flag (the
source's `HashMap<Entity, bool>`). -/
abbrev TrackerMap := List (Entity × Bool)

/-- `HashMap::contains_key`. -/
def trackerContains (m : TrackerMap) (k : Entity) : Bool :=
  m.any (fun p => p.1 = k)

/-- `HashMap::get`, as an optional value. -/
def trackerLookup (m : TrackerMap) (k : Entity) : Option Bool :=
  (m.find? (fun p => p.1 = k)).map Prod.snd

/-- `HashMap::insert`: replace the value under an existing key, or append
a new key. -/
def trackerSet (m : TrackerMap) (k : Entity) (v : Bool) : TrackerMap :=
  if trackerContains m k then
    m.map (fun p => if p.1 = k then (k, v) else p)
  else
    m ++ [(k, v)]

/-- The key set of the map. -/
def trackerKeys (m : TrackerMap) : List Entity := m.map Prod.fst

/-- The `all_spawned` check of `blueprints_transfer_components`: every
value in the map is `true`. -/
def trackerAllTrue (m : TrackerMap) : Bool := m.all (fun p => p.2)

/-- The net tracker mutation of `blueprints_transfer_components` lines
564–565: `entry(original).or_insert(true)` followed by
`insert(original, true)` — the entry for `original` is set to `true`,
inserted when absent. -/
def markSubBlueprintSpawned (m : TrackerMap) (original : Entity) : TrackerMap :=
  trackerSet m original true

/-- The wrapper-root search of `blueprints_transfer_components`: starting
from `Entity::PLACEHOLDER`, take the first current child that is not in
the `OriginalChildren` snapshot. -/
def findBlueprintRootEntity : List Entity → List Entity → Entity
  | [], _ => Entity.PLACEHOLDER
  | c :: rest, orig => if orig.contains c then findBlueprintRootEntity rest orig else c

/-- The deferred `Commands` a run of `blueprints_transfer_components`
issues for one instance. -/
inductive TransferCommand where
  | copyComponents (source : Entity) (destination : Entity)
  | addChild (parent : Entity) (child : Entity)
  | insertReadyForPostProcess (e : Entity)
  | despawnRecursive (e : Entity)
  | insertChildrenReady (e : Entity)
deriving DecidableEq, Repr

/-- The inputs of `blueprints_transfer_components` for one instance with
`Added<BlueprintChildrenReady>`: its current children, its
`OriginalChildren` snapshot, its optional `SpawnTrackRoot`, the referenced
root's `SubBlueprintsSpawnTracker` map when that root has one, and the
children query used to look up the wrapper root's own children. -/
structure TransferInput where
  original : Entity
  children : List Entity
  originalChildren : List Entity
  trackRoot : Option Entity
  rootTracker : Option TrackerMap
  childrenOf : Entity → List Entity

/-- Result of `blueprints_transfer_components` on one instance. -/
structure TransferResult where
  skippedNoChildren : Bool
  commands : List TransferCommand
  updatedRootTracker : Option TrackerMap

/-- `blueprints_transfer_components`, per instance: warn and skip when the
current child count is zero; otherwise pick the wrapper root (placeholder
fallthrough included), copy its components onto the original entity,
reparent its children up, tag `BlueprintReadyForPostProcess`, despawn the
wrapper recursively, and -- when a `SpawnTrackRoot` refers to a root that
owns a tracker -- set this instance's entry `true` and tag the root
`BlueprintChildrenReady` when every entry of the updated map is `true`. -/
def blueprints_transfer_components (inp : TransferInput) : TransferResult :=
  if inp.children.length = 0 then
    { skippedNoChildren := true, commands := [], updatedRootTracker := inp.rootTracker }
  else
    let blueprint_root_entity := findBlueprintRootEntity inp.children inp.originalChildren
    let base :=
      TransferCommand.copyComponents blueprint_root_entity inp.original ::
      (inp.childrenOf blueprint_root_entity).map (TransferCommand.addChild inp.original) ++
      [TransferCommand.insertReadyForPostProcess inp.original,
       TransferCommand.despawnRecursive blueprint_root_entity]
    match inp.trackRoot, inp.rootTracker with
    | some root, some m =>
      let m2 := markSubBlueprintSpawned m inp.original
      { skippedNoChildren := false
        commands := base ++ (if trackerAllTrue m2 then [TransferCommand.insertChildrenReady root] else [])
        updatedRootTracker := some m2 }
    | _, _ =>
      { skippedNoChildren := false, commands := base, updatedRootTracker := inp.rootTracker }

/-- The `Added<BlueprintChildrenReady>` trigger of
`blueprints_transfer_components` as seen for one instance at one tick:
whether `BlueprintChildrenReady` was added since the system last ran, and
the instance's current child count. -/
structure TransferTrigger where
  added : Bool
  childCount : Nat
deriving DecidableEq, Repr

/-- What the transfer system does with one instance at one tick. -/
inductive TransferSelection where
  | notSelected
  | warnedSkip
  | processed
deriving DecidableEq, Repr

/-- Selection of `blueprints_transfer_components`: the query only yields
instances whose `BlueprintChildrenReady` was added since the last run
(`Added` filter); a yielded instance with zero children is warned about
and skipped by `continue`; otherwise it is processed. -/
def transferSelection (v : TransferTrigger) : TransferSelection :=
  if !v.added then TransferSelection.notSelected
  else if v.childCount = 0 then TransferSelection.warnedSkip
  else TransferSelection.processed

/-- The trigger state at the next tick, after the system has run once:
the `Added` flag is consumed (the addition is no longer "since the last
run"), whatever the child count has become, unless some system inserts
`BlueprintChildrenReady` again. -/
def transferTriggerAfterRun (_v : TransferTrigger) (newChildCount : Nat) : TransferTrigger :=
  { added := false, childCount := newChildCount }

/-- The inputs of `blueprints_finalize_instances` for one instance:
presence of `BlueprintSpawning`, `BlueprintReadyForFinalizing`,
`BlueprintReadyForPostProcess` and `HideUntilReady`, plus its
`BlueprintInfo`. -/
structure FinalizeInput where
  entity : Entity
  blueprintName : String
  blueprintPath : String
  spawning : Bool
  readyForFinalizing : Bool
  readyForPostProcess : Bool
  hideUntilReady : Bool
deriving DecidableEq, Repr

/-- Effects of `blueprints_finalize_instances` on one instance. -/
structure FinalizeResult where
  selected : Bool
  removedSpawnHere : Bool
  removedBlueprintSpawning : Bool
  removedReadyForPostProcess : Bool
  insertedBlueprintInstanceReady : Bool
  insertedVisibilityVisible : Bool
  events : List BlueprintEvent
deriving DecidableEq, Repr

/-- `blueprints_finalize_instances`, per instance: the query selects
entities with **both** `BlueprintSpawning` and `BlueprintReadyForFinalizing`;
for each it removes `SpawnHere`, `BlueprintSpawning` and
`BlueprintReadyForPostProcess`, inserts `BlueprintInstanceReady`, sets
`Visibility::Visible` when `HideUntilReady` is present, and sends
`BlueprintEvent::InstanceReady` with the entity, name and path. -/
def blueprints_finalize_instances (inp : FinalizeInput) : FinalizeResult :=
  if inp.spawning && inp.readyForFinalizing then
    { selected := true
      removedSpawnHere := true
      removedBlueprintSpawning := true
      removedReadyForPostProcess := true
      insertedBlueprintInstanceReady := true
      insertedVisibilityVisible := inp.hideUntilReady
      events := [BlueprintEvent.instanceReady inp.entity inp.blueprintName inp.blueprintPath] }
  else
    { selected := false
      removedSpawnHere := false
      removedBlueprintSpawning := false
      removedReadyForPostProcess := false
      insertedBlueprintInstanceReady := false
      insertedVisibilityVisible := false
      events := [] }

/-- The events the whole pipeline sends for one instance that completes
it: `blueprints_check_assets_loading` sends none (the
`BlueprintEvent::AssetsLoaded` send in the source is commented out),
`blueprints_assets_ready`, `blueprints_scenes_spawned` and
`blueprints_transfer_components` take no `EventWriter` at all (in
particular `BlueprintEvent::Spawned` is never constructed), and
`blueprints_finalize_instances` sends `InstanceReady`. -/
def pipelineEmittedEvents (server : AssetServerView) (s : BlueprintAssetsLoadState)
    (fin : FinalizeInput) : List BlueprintEvent :=
  (blueprints_check_assets_loading server s).events ++
    (blueprints_finalize_instances fin).events

/-- One live instance as seen by `react_to_asset_changes`: the query
requires a `BlueprintAssetsLoadState`, whose entry paths are listed here,
plus the instance's optional children. -/
structure ReloadInstance where
  entity : Entity
  trackerPaths : List String
  children : List Entity
deriving DecidableEq, Repr

/-- Effects of `react_to_asset_changes` on one instance for one
`AssetEvent::Modified` notification. -/
structure ReloadResult where
  despawnedChildrenRecursively : List Entity
  removedBlueprintAssetsLoaded : Bool
  removedSceneInstance : Bool
  removedBlueprintAssetsLoadState : Bool
  insertedSpawnHere : Bool
deriving DecidableEq, Repr

/-- `react_to_asset_changes`, per instance, for one `Modified` gltf event
whose asset resolves to `modifiedPath`: when some tracker entry's path
equals the modified path, every current child is despawned recursively,
`BlueprintAssetsLoaded`, `SceneInstance` and `BlueprintAssetsLoadState`
are removed and `SpawnHere` is inserted; otherwise nothing is issued for
this instance. -/
def react_to_asset_changes (modifiedPath : String) (inst : ReloadInstance) : ReloadResult :=
  if inst.trackerPaths.any (fun p => p = modifiedPath) then
    { despawnedChildrenRecursively := inst.children
      removedBlueprintAssetsLoaded := true
      removedSceneInstance := true
      removedBlueprintAssetsLoadState := true
      insertedSpawnHere := true }
  else
    { despawnedChildrenRecursively := []
      removedBlueprintAssetsLoaded := false
      removedSceneInstance := false
      removedBlueprintAssetsLoadState := false
      insertedSpawnHere := false }

/-- Effects of `blueprints_scenes_spawned` on one instance whose
`SceneInstance` just appeared. -/
structure ScenesSpawnedResult where
  insertedTracker : Option TrackerMap
  insertedChildrenReady : Bool

/-- The tracker-creation tail of `blueprints_scenes_spawned` (lines
477–482), parameterized by the `tracker_data` accumulated during the
descendant walk: one `(child, false)` entry per discovered direct
sub-blueprint instance.  When at least one sub-blueprint was discovered a
`SubBlueprintsSpawnTracker` holding exactly those keys is inserted;
otherwise `BlueprintChildrenReady` is inserted directly. -/
def blueprints_scenes_spawned (discovered : List Entity) : ScenesSpawnedResult :=
  let tracker_data : TrackerMap := discovered.map (fun child => (child, false))
  if tracker_data.length > 0 then
    { insertedTracker := some tracker_data, insertedChildrenReady := false }
  else
    { insertedTracker := none, insertedChildrenReady := true }

theorem trackerResolved_set_loaded (server : AssetServerView) (t : AssetLoadTracker) (b : Bool) :
    trackerResolved server { t with loaded := b } = trackerResolved server t := rfl

theorem lookup_map_set_self (m : TrackerMap) (k : Entity) (v : Bool)
    (hc : trackerContains m k = true) :
    trackerLookup (m.map (fun p => if p.1 = k then (k, v) else p)) k = some v := by
  induction m with
  | nil => simp [trackerContains] at hc
  | cons p rest ih =>
    by_cases hp : p.1 = k
    · simp [trackerLookup, hp, List.find?]
    · have hc' : trackerContains rest k = true := by
        simpa [trackerContains, hp] using hc
      simpa [trackerLookup, hp, List.find?] using ih hc'

theorem lookup_append_new_self (m : TrackerMap) (k : Entity) (v : Bool)
    (hc : trackerContains m k = false) :
    trackerLookup (m ++ [(k, v)]) k = some v := by
  induction m with
  | nil => simp [trackerLookup, List.find?]
  | cons p rest ih =>
    have hp : ¬(p.1 = k) := by
      intro h
      simp [trackerContains, h] at hc
    have hc' : trackerContains rest k = false := by
      simpa [trackerContains, hp] using hc
    simpa [trackerLookup, hp, List.find?] using ih hc'

theorem trackerLookup_trackerSet_self (m : TrackerMap) (k : Entity) (v : Bool) :
    trackerLookup (trackerSet m k v) k = some v := by
  unfold trackerSet
  by_cases hc : trackerContains m k
  · rw [if_pos hc]; exact lookup_map_set_self m k v hc
  · rw [if_neg hc]; exact lookup_append_new_self m k v (by simpa using hc)

theorem lookup_map_set_ne (m : TrackerMap) (k k' : Entity) (v : Bool) (h : k' ≠ k) :
    trackerLookup (m.map (fun p => if p.1 = k then (k, v) else p)) k'
      = trackerLookup m k' := by
  induction m with
  | nil => rfl
  | cons p rest ih =>
    by_cases hp : p.1 = k
    · have h1 : ¬((k, v).1 = k') := fun hk => h hk.symm
      have h2 : ¬(p.1 = k') := fun hk => h (hk.symm.trans hp)
      unfold trackerLookup
      rw [List.map_cons, if_pos hp,
        List.find?_cons_of_neg _ (by simpa using h1),
        List.find?_cons_of_neg _ (by simpa using h2)]
      exact ih
    · by_cases hk' : p.1 = k'
      · unfold trackerLookup
        rw [List.map_cons, if_neg hp,
          List.find?_cons_of_pos _ (by simpa using hk'),
          List.find?_cons_of_pos _ (by simpa using hk')]
      · unfold trackerLookup
        rw [List.map_cons, if_neg hp,
          List.find?_cons_of_neg _ (by simpa using hk'),
          List.find?_cons_of_neg _ (by simpa using hk')]
        exact ih

theorem lookup_append_ne (m : TrackerMap) (k k' : Entity) (v : Bool) (h : k' ≠ k) :
    trackerLookup (m ++ [(k, v)]) k' = trackerLookup m k' := by
  induction m with
  | nil =>
    have h1 : ¬((k, v).1 = k') := fun hk => h hk.symm
    simp [trackerLookup, List.find?, h1]
  | cons p rest ih =>
    by_cases hk' : p.1 = k'
    · unfold trackerLookup
      rw [List.cons_append,
        List.find?_cons_of_pos _ (by simpa using hk'),
        List.find?_cons_of_pos _ (by simpa using hk')]
    · unfold trackerLookup
      rw [List.cons_append,
        List.find?_cons_of_neg _ (by simpa using hk'),
        List.find?_cons_of_neg _ (by simpa using hk')]
      exact ih

theorem trackerLookup_trackerSet_ne (m : TrackerMap) (k k' : Entity) (v : Bool)
    (h : k' ≠ k) :
    trackerLookup (trackerSet m k v) k' = trackerLookup m k' := by
  unfold trackerSet
  by_cases hc : trackerContains m k
  · rw [if_pos hc]; exact lookup_map_set_ne m k k' v h
  · rw [if_neg hc]; exact lookup_append_ne m k k' v h

theorem trackerKeys_trackerSet (m : TrackerMap) (k : Entity) (v : Bool) :
    trackerKeys (trackerSet m k v) =
      if trackerContains m k then trackerKeys m else trackerKeys m ++ [k] := by
  unfold trackerSet
  by_cases hc : trackerContains m k
  · rw [if_pos hc, if_pos hc]
    simp only [trackerKeys, List.map_map]
    congr 1
    funext p
    by_cases hp : p.1 = k
    · simp [Function.comp, hp]
    · simp [Function.comp, hp]
  · rw [if_neg hc, if_neg hc]
    simp [trackerKeys]

theorem allTrue_map_set (m : TrackerMap) (k : Entity) :
    trackerAllTrue (m.map (fun p => if p.1 = k then (k, true) else p)) = true
      ↔ ∀ p ∈ m, p.1 ≠ k → p.2 = true := by
  simp only [trackerAllTrue, List.all_map, List.all_eq_true, Function.comp]
  constructor
  · intro h p hp hk
    have := h p hp
    simpa [hk] using this
  · intro h p hp
    by_cases hk : p.1 = k
    · simp [hk]
    · simpa [hk] using h p hp hk

theorem trackerAllTrue_markSubBlueprintSpawned (m : TrackerMap) (k : Entity) :
    trackerAllTrue (markSubBlueprintSpawned m k) = true
      ↔ ∀ p ∈ m, p.1 ≠ k → p.2 = true := by
  unfold markSubBlueprintSpawned trackerSet
  by_cases hc : trackerContains m k
  · rw [if_pos hc]; exact allTrue_map_set m k
  · rw [if_neg hc]
    simp only [trackerAllTrue, List.all_append, List.all_cons, List.all_nil,
      Bool.and_eq_true, List.all_eq_true]
    constructor
    · intro h p hp _
      exact h.1 p hp
    · intro h
      refine ⟨fun p hp => ?_, by simp⟩
      apply h p hp
      intro hk
      apply hc
      simp only [trackerContains, List.any_eq_true, decide_eq_true_eq]
      exact ⟨p, hp, hk⟩

/-- C9: during scene instantiation the anchor is reparented under the
game-world root iff both the `AddToGameWorld` flag is present and the
anchor had a parent before spawning; in particular, with the flag set but
no parent, no reparenting occurs. -/
theorem assets_ready_reparents_iff_flag_and_parent (inp : AssetsReadyInput) :
    ((blueprints_assets_ready inp).reparentedUnderGameWorld = true ↔
      (inp.addToGameWorld = true ∧ inp.hasOriginalParent = true)) ∧
    (blueprints_assets_ready
        { inp with hasOriginalParent := false }).reparentedUnderGameWorld = false := by
  constructor
  · simp [blueprints_assets_ready, Bool.and_eq_true]
  · simp [blueprints_assets_ready]

/-- C5 counterexample: an instance whose `BlueprintChildrenReady` was just
added but whose anchor has zero children is warned about and skipped, yet
at the next tick -- even after children have appeared -- the
`Added<BlueprintChildrenReady>` query no longer selects it, so it is never
retried (the claim says it is retried on a subsequent tick). -/
theorem transfer_zero_children_never_retried :
    transferSelection { added := true, childCount := 0 } = TransferSelection.warnedSkip ∧
    transferSelection (transferTriggerAfterRun { added := true, childCount := 0 } 3)
      = TransferSelection.notSelected := by
  exact ⟨rfl, rfl⟩

/-- C5 amended: the zero-children anomaly is logged and the instance
skipped without any command being issued, but -- because the transfer
system is edge-triggered on `Added<BlueprintChildrenReady>` -- the
instance is not selected at any later tick unless `BlueprintChildrenReady`
is inserted again; it stalls rather than being retried. -/
theorem transfer_zero_children_skips_without_retry (inp : TransferInput)
    (v : TransferTrigger) (n : Nat)
    (hadded : v.added = true) (hzero : v.childCount = 0)
    (hch : inp.children = []) :
    transferSelection v = TransferSelection.warnedSkip ∧
    (blueprints_transfer_components inp).skippedNoChildren = true ∧
    (blueprints_transfer_components inp).commands = [] ∧
    (blueprints_transfer_components inp).updatedRootTracker = inp.rootTracker ∧
    transferSelection (transferTriggerAfterRun v n) = TransferSelection.notSelected := by
  have h0 : inp.children.length = 0 := by simp [hch]
  refine ⟨?_, ?_, ?_, ?_, ?_⟩
  · simp [transferSelection, hadded, hzero]
  · simp [blueprints_transfer_components, h0]
  · simp [blueprints_transfer_components, h0]
  · simp [blueprints_transfer_components, h0]
  · simp [transferSelection, transferTriggerAfterRun]

/-- C5 witness for `transfer_zero_children_skips_without_retry`. -/
theorem transfer_zero_children_skips_without_retry_witness :
    transferSelection { added := true, childCount := 0 } = TransferSelection.warnedSkip ∧
    (blueprints_transfer_components
      { original := ⟨2⟩, children := [], originalChildren := [],
        trackRoot := none, rootTracker := none,
        childrenOf := fun _ => [] }).skippedNoChildren = true ∧
    (blueprints_transfer_components
      { original := ⟨2⟩, children := [], originalChildren := [],
        trackRoot := none, rootTracker := none,
        childrenOf := fun _ => [] }).commands = [] ∧
    (blueprints_transfer_components
      { original := ⟨2⟩, children := [], originalChildren := [],
        trackRoot := none, rootTracker := none,
        childrenOf := fun _ => [] }).updatedRootTracker = none ∧
    transferSelection (transferTriggerAfterRun { added := true, childCount := 0 } 7)
      = TransferSelection.notSelected :=
  transfer_zero_children_skips_without_retry
    { original := ⟨2⟩, children := [], originalChildren := [],
      trackRoot := none, rootTracker := none, childrenOf := fun _ => [] }
    { added := true, childCount := 0 } 7 rfl rfl rfl

/-- C6 counterexample: an instance that is `BlueprintSpawning` and
`BlueprintReadyForPostProcess` but lacks `BlueprintReadyForFinalizing` is
not selected by `blueprints_finalize_instances` at all -- nothing is
removed, no terminal tag is inserted and no event is sent -- contradicting
the claim that the finalizer runs on every spawning instance marked
`BlueprintReadyForPostProcess`. -/
theorem finalize_ignores_post_process_only_instance :
    (blueprints_finalize_instances
      { entity := ⟨3⟩, blueprintName := "blue", blueprintPath := "blueprints/blue.glb",
        spawning := true, readyForFinalizing := false,
        readyForPostProcess := true, hideUntilReady := true }).selected = false ∧
    (blueprints_finalize_instances
      { entity := ⟨3⟩, blueprintName := "blue", blueprintPath := "blueprints/blue.glb",
        spawning := true, readyForFinalizing := false,
        readyForPostProcess := true, hideUntilReady := true }).insertedBlueprintInstanceReady
      = false ∧
    (blueprints_finalize_instances
      { entity := ⟨3⟩, blueprintName := "blue", blueprintPath := "blueprints/blue.glb",
        spawning := true, readyForFinalizing := false,
        readyForPostProcess := true, hideUntilReady := true }).events = [] :=
  ⟨rfl, rfl, rfl⟩

/-- C6 amended: the finalizer is gated on `BlueprintSpawning` **and**
`BlueprintReadyForFinalizing` (not on `BlueprintReadyForPostProcess`);
on every selected instance it removes `SpawnHere`, `BlueprintSpawning` and
`BlueprintReadyForPostProcess`, inserts `BlueprintInstanceReady`, sets
`Visibility::Visible` exactly when `HideUntilReady` is present, and sends
`BlueprintEvent::InstanceReady` with the entity id, blueprint name and
blueprint path. -/
theorem finalize_runs_iff_spawning_and_ready_for_finalizing (inp : FinalizeInput) :
    ((blueprints_finalize_instances inp).selected = true ↔
      (inp.spawning = true ∧ inp.readyForFinalizing = true)) ∧
    (inp.spawning = true → inp.readyForFinalizing = true →
      blueprints_finalize_instances inp =
        { selected := true
          removedSpawnHere := true
          removedBlueprintSpawning := true
          removedReadyForPostProcess := true
          insertedBlueprintInstanceReady := true
          insertedVisibilityVisible := inp.hideUntilReady
          events := [BlueprintEvent.instanceReady inp.entity inp.blueprintName
            inp.blueprintPath] }) := by
  constructor
  · by_cases h1 : inp.spawning = true <;> by_cases h2 : inp.readyForFinalizing = true <;>
      simp [blueprints_finalize_instances, h1, h2]
  · intro h1 h2
    simp [blueprints_finalize_instances, h1, h2]

/-- C6 witness for `finalize_runs_iff_spawning_and_ready_for_finalizing`. -/
theorem finalize_runs_iff_spawning_and_ready_for_finalizing_witness :
    (((blueprints_finalize_instances
        { entity := ⟨4⟩, blueprintName := "b", blueprintPath := "p",
          spawning := true, readyForFinalizing := true,
          readyForPostProcess := true, hideUntilReady := false }).selected = true ↔
      ((true : Bool) = true ∧ (true : Bool) = true)) ∧
    ((true : Bool) = true → (true : Bool) = true →
      blueprints_finalize_instances
        { entity := ⟨4⟩, blueprintName := "b", blueprintPath := "p",
          spawning := true, readyForFinalizing := true,
          readyForPostProcess := true, hideUntilReady := false } =
        { selected := true
          removedSpawnHere := true
          removedBlueprintSpawning := true
          removedReadyForPostProcess := true
          insertedBlueprintInstanceReady := true
          insertedVisibilityVisible := false
          events := [BlueprintEvent.instanceReady ⟨4⟩ "b" "p"] })) :=
  finalize_runs_iff_spawning_and_ready_for_finalizing
    { entity := ⟨4⟩, blueprintName := "b", blueprintPath := "p",
      spawning := true, readyForFinalizing := true,
      readyForPostProcess := true, hideUntilReady := false }

/-- C7: on a `Modified` notification whose asset path matches some tracker
entry of a live instance, that instance's children are all despawned
recursively, its `BlueprintAssetsLoaded`, `SceneInstance` and
`BlueprintAssetsLoadState` are removed and `SpawnHere` is re-inserted;
an instance with no matching tracker entry is left entirely unchanged. -/
theorem asset_change_resets_matching_instance_only (modifiedPath : String)
    (inst : ReloadInstance) :
    (modifiedPath ∈ inst.trackerPaths →
      react_to_asset_changes modifiedPath inst =
        { despawnedChildrenRecursively := inst.children
          removedBlueprintAssetsLoaded := true
          removedSceneInstance := true
          removedBlueprintAssetsLoadState := true
          insertedSpawnHere := true }) ∧
    (modifiedPath ∉ inst.trackerPaths →
      react_to_asset_changes modifiedPath inst =
        { despawnedChildrenRecursively := []
          removedBlueprintAssetsLoaded := false
          removedSceneInstance := false
          removedBlueprintAssetsLoadState := false
          insertedSpawnHere := false }) := by
  have hiff : inst.trackerPaths.any (fun p => p = modifiedPath) = true ↔
      modifiedPath ∈ inst.trackerPaths := by
    simp only [List.any_eq_true, decide_eq_true_eq]
    constructor
    · rintro ⟨p, hp, rfl⟩; exact hp
    · intro hp; exact ⟨modifiedPath, hp, rfl⟩
  constructor
  · intro h
    rw [react_to_asset_changes, if_pos (hiff.mpr h)]
  · intro h
    rw [react_to_asset_changes, if_neg (fun hc => h (hiff.mp hc))]

/-- C7 witness for `asset_change_resets_matching_instance_only`. -/
theorem asset_change_resets_matching_instance_only_witness :
    ("a.glb" ∈ ["a.glb", "tex.png"] →
      react_to_asset_changes "a.glb"
          { entity := ⟨1⟩, trackerPaths := ["a.glb", "tex.png"], children := [⟨2⟩, ⟨3⟩] } =
        { despawnedChildrenRecursively := [⟨2⟩, ⟨3⟩]
          removedBlueprintAssetsLoaded := true
          removedSceneInstance := true
          removedBlueprintAssetsLoadState := true
          insertedSpawnHere := true }) ∧
    ("a.glb" ∉ (["a.glb", "tex.png"] : List String) →
      react_to_asset_changes "a.glb"
          { entity := ⟨1⟩, trackerPaths := ["a.glb", "tex.png"], children := [⟨2⟩, ⟨3⟩] } =
        { despawnedChildrenRecursively := []
          removedBlueprintAssetsLoaded := false
          removedSceneInstance := false
          removedBlueprintAssetsLoadState := false
          insertedSpawnHere := false }) :=
  asset_change_resets_matching_instance_only "a.glb"
    { entity := ⟨1⟩, trackerPaths := ["a.glb", "tex.png"], children := [⟨2⟩, ⟨3⟩] }

/-- C8 counterexample: a concrete instance that completes the pipeline
(all assets resolved, then finalized) emits only the `InstanceReady`
notification -- neither `AssetsLoaded` nor `Spawned` is ever sent (the
`AssetsLoaded` send in the source is commented out and `Spawned` is never
constructed), contradicting the claim that all three notification kinds
are sent. -/
theorem pipeline_emits_only_instance_ready_event :
    pipelineEmittedEvents
        ⟨fun _ => true, fun _ => LoadState.loaded⟩
        ⟨false, [⟨"blue", "blueprints/blue.glb", ⟨1⟩, false⟩], 0⟩
        ⟨⟨3⟩, "blue", "blueprints/blue.glb", true, true, true, false⟩ =
      [BlueprintEvent.instanceReady ⟨3⟩ "blue" "blueprints/blue.glb"] ∧
    BlueprintEvent.assetsLoaded ⟨3⟩ "blue" "blueprints/blue.glb" ∉
      pipelineEmittedEvents
        ⟨fun _ => true, fun _ => LoadState.loaded⟩
        ⟨false, [⟨"blue", "blueprints/blue.glb", ⟨1⟩, false⟩], 0⟩
        ⟨⟨3⟩, "blue", "blueprints/blue.glb", true, true, true, false⟩ ∧
    BlueprintEvent.spawned ⟨3⟩ "blue" "blueprints/blue.glb" ∉
      pipelineEmittedEvents
        ⟨fun _ => true, fun _ => LoadState.loaded⟩
        ⟨false, [⟨"blue", "blueprints/blue.glb", ⟨1⟩, false⟩], 0⟩
        ⟨⟨3⟩, "blue", "blueprints/blue.glb", true, true, true, false⟩ := by
  refine ⟨rfl, ?_, ?_⟩ <;> decide

/-- C8 amended: of the three declared notification variants only
`InstanceReady` is ever emitted: the asset-load poller sends no event (its
`AssetsLoaded` send is commented out), no modelled system constructs
`Spawned`, and every event the pipeline emits for an instance is the
finalizer's `InstanceReady` with that instance's id, name and path. -/
theorem pipeline_events_are_instance_ready_only (server : AssetServerView)
    (s : BlueprintAssetsLoadState) (fin : FinalizeInput) :
    (blueprints_check_assets_loading server s).events = [] ∧
    pipelineEmittedEvents server s fin = (blueprints_finalize_instances fin).events ∧
    (∀ e ∈ pipelineEmittedEvents server s fin,
      e = BlueprintEvent.instanceReady fin.entity fin.blueprintName fin.blueprintPath) := by
  refine ⟨rfl, ?_, ?_⟩
  · simp [pipelineEmittedEvents, blueprints_check_assets_loading]
  · intro e he
    simp only [pipelineEmittedEvents, blueprints_check_assets_loading,
      List.nil_append] at he
    unfold blueprints_finalize_instances at he
    by_cases h : (fin.spawning && fin.readyForFinalizing) = true
    · rw [if_pos h] at he
      simpa using he
    · rw [if_neg h] at he
      simp at he

/-- C8 witness for `pipeline_events_are_instance_ready_only`. -/
theorem pipeline_events_are_instance_ready_only_witness :
    (blueprints_check_assets_loading
        { isLoadedWithDependencies := fun _ => false, loadState := fun _ => LoadState.loading }
        { all_loaded := false, asset_infos := [], progress := 0 }).events = [] ∧
    pipelineEmittedEvents
        { isLoadedWithDependencies := fun _ => false, loadState := fun _ => LoadState.loading }
        { all_loaded := false, asset_infos := [], progress := 0 }
        { entity := ⟨9⟩, blueprintName := "n", blueprintPath := "p",
          spawning := true, readyForFinalizing := true, readyForPostProcess := false,
          hideUntilReady := false } =
      (blueprints_finalize_instances
        { entity := ⟨9⟩, blueprintName := "n", blueprintPath := "p",
          spawning := true, readyForFinalizing := true, readyForPostProcess := false,
          hideUntilReady := false }).events ∧
    (∀ e ∈ pipelineEmittedEvents
        { isLoadedWithDependencies := fun _ => false, loadState := fun _ => LoadState.loading }
        { all_loaded := false, asset_infos := [], progress := 0 }
        { entity := ⟨9⟩, blueprintName := "n", blueprintPath := "p",
          spawning := true, readyForFinalizing := true, readyForPostProcess := false,
          hideUntilReady := false },
      e = BlueprintEvent.instanceReady ⟨9⟩ "n" "p") :=
  pipeline_events_are_instance_ready_only
    { isLoadedWithDependencies := fun _ => false, loadState := fun _ => LoadState.loading }
    { all_loaded := false, asset_infos := [], progress := 0 }
    { entity := ⟨9⟩, blueprintName := "n", blueprintPath := "p",
      spawning := true, readyForFinalizing := true, readyForPostProcess := false,
      hideUntilReady := false }

/-- C3: per newly detected spawn request, exactly one of two outcomes
occurs: when the computed not-yet-loaded entry list is empty the instance
gets `BlueprintAssetsLoaded` immediately and no tracker; otherwise exactly
one `BlueprintAssetsLoadState` tracker carrying that list plus
`BlueprintAssetsNotLoaded` is attached.  The entry list is empty iff the
root asset and every declared auxiliary asset were already loaded. -/
theorem prepare_spawn_attaches_tracker_or_skips_loading (inp : PrepareSpawnInput) :
    (prepareAssetInfos inp = [] →
      blueprints_prepare_spawn inp =
        { attachedTracker := none
          insertedBlueprintAssetsNotLoaded := false
          insertedBlueprintAssetsLoaded := true
          insertedBlueprintSpawning := true }) ∧
    (prepareAssetInfos inp ≠ [] →
      blueprints_prepare_spawn inp =
        { attachedTracker := some
            { all_loaded := false, asset_infos := prepareAssetInfos inp, progress := 0 }
          insertedBlueprintAssetsNotLoaded := true
          insertedBlueprintAssetsLoaded := false
          insertedBlueprintSpawning := true }) ∧
    ((blueprints_prepare_spawn inp).insertedBlueprintAssetsLoaded
      = !(blueprints_prepare_spawn inp).insertedBlueprintAssetsNotLoaded) ∧
    ((blueprints_prepare_spawn inp).attachedTracker = none ↔
      (blueprints_prepare_spawn inp).insertedBlueprintAssetsLoaded = true) ∧
    (prepareAssetInfos inp = [] ↔
      (inp.rootLoaded = true ∧ ∀ a ∈ inp.auxAssets, a.2 = true)) := by
  refine ⟨?_, ?_, ?_, ?_, ?_⟩
  · intro h
    rw [blueprints_prepare_spawn]
    simp [h]
  · intro h
    rw [blueprints_prepare_spawn]
    simp [List.isEmpty_iff, h]
  · rw [blueprints_prepare_spawn]
    by_cases h : (prepareAssetInfos inp).isEmpty <;> simp [h]
  · rw [blueprints_prepare_spawn]
    by_cases h : (prepareAssetInfos inp).isEmpty <;> simp [h]
  · by_cases hr : inp.rootLoaded = true
    · rw [prepareAssetInfos, hr]
      simp only [if_true, List.nil_append, List.filterMap_eq_nil_iff, hr, true_and]
      constructor
      · intro h a ha
        have := h a ha
        by_cases h2 : a.2 = true
        · exact h2
        · simp [h2] at this
      · intro h a ha
        simp [h a ha]
    · have hr' : inp.rootLoaded = false := by
        cases h : inp.rootLoaded
        · rfl
        · exact absurd h hr
      simp [prepareAssetInfos, hr']

/-- C3 witness for `prepare_spawn_attaches_tracker_or_skips_loading`. -/
theorem prepare_spawn_attaches_tracker_or_skips_loading_witness :
    (prepareAssetInfos ⟨"b", "p", ⟨1⟩, true, []⟩ = [] →
      blueprints_prepare_spawn ⟨"b", "p", ⟨1⟩, true, []⟩ =
        { attachedTracker := none
          insertedBlueprintAssetsNotLoaded := false
          insertedBlueprintAssetsLoaded := true
          insertedBlueprintSpawning := true }) ∧
    (prepareAssetInfos ⟨"b", "p", ⟨1⟩, true, []⟩ ≠ [] →
      blueprints_prepare_spawn ⟨"b", "p", ⟨1⟩, true, []⟩ =
        { attachedTracker := some
            { all_loaded := false,
              asset_infos := prepareAssetInfos ⟨"b", "p", ⟨1⟩, true, []⟩, progress := 0 }
          insertedBlueprintAssetsNotLoaded := true
          insertedBlueprintAssetsLoaded := false
          insertedBlueprintSpawning := true }) ∧
    ((blueprints_prepare_spawn ⟨"b", "p", ⟨1⟩, true, []⟩).insertedBlueprintAssetsLoaded
      = !(blueprints_prepare_spawn ⟨"b", "p", ⟨1⟩, true, []⟩).insertedBlueprintAssetsNotLoaded) ∧
    ((blueprints_prepare_spawn ⟨"b", "p", ⟨1⟩, true, []⟩).attachedTracker = none ↔
      (blueprints_prepare_spawn ⟨"b", "p", ⟨1⟩, true, []⟩).insertedBlueprintAssetsLoaded = true) ∧
    (prepareAssetInfos ⟨"b", "p", ⟨1⟩, true, []⟩ = [] ↔
      ((true : Bool) = true ∧ ∀ a ∈ ([] : List (AssetLoadTracker × Bool)), a.2 = true)) :=
  prepare_spawn_attaches_tracker_or_skips_loading ⟨"b", "p", ⟨1⟩, true, []⟩

theorem findBlueprintRootEntity_eq_find (children orig : List Entity) :
    findBlueprintRootEntity children orig
      = (children.find? (fun c => !orig.contains c)).getD Entity.PLACEHOLDER := by
  induction children with
  | nil => rfl
  | cons c rest ih =>
    by_cases hc : orig.contains c
    · rw [findBlueprintRootEntity, if_pos hc,
        List.find?_cons_of_neg _ (by simpa using hc)]
      exact ih
    · rw [findBlueprintRootEntity, if_neg hc,
        List.find?_cons_of_pos _ (by simpa using hc)]
      rfl

/-- C10: when every current child already appears in the
`OriginalChildren` snapshot, the wrapper-root selection of
`blueprints_transfer_components` falls through unguarded: the instance is
not skipped, and the issued commands copy components from
`Entity::PLACEHOLDER` and recursively despawn `Entity::PLACEHOLDER`.
In general the selected wrapper root is the first current child (in child
order) absent from the snapshot, defaulting to the placeholder. -/
theorem transfer_placeholder_fallthrough_when_no_new_child (inp : TransferInput)
    (hne : inp.children ≠ []) :
    ((∀ c ∈ inp.children, c ∈ inp.originalChildren) →
      (blueprints_transfer_components inp).skippedNoChildren = false ∧
      findBlueprintRootEntity inp.children inp.originalChildren = Entity.PLACEHOLDER ∧
      TransferCommand.copyComponents Entity.PLACEHOLDER inp.original ∈
        (blueprints_transfer_components inp).commands ∧
      TransferCommand.despawnRecursive Entity.PLACEHOLDER ∈
        (blueprints_transfer_components inp).commands) ∧
    findBlueprintRootEntity inp.children inp.originalChildren
      = (inp.children.find? (fun c => !inp.originalChildren.contains c)).getD
          Entity.PLACEHOLDER := by
  have h0 : ¬(inp.children.length = 0) := by
    simpa [List.length_eq_zero] using hne
  constructor
  · intro hall
    have hroot : findBlueprintRootEntity inp.children inp.originalChildren
        = Entity.PLACEHOLDER := by
      rw [findBlueprintRootEntity_eq_find]
      have : inp.children.find? (fun c => !inp.originalChildren.contains c) = none := by
        rw [List.find?_eq_none]
        intro c hc
        simp [hall c hc]
      rw [this]
      rfl
    refine ⟨?_, hroot, ?_, ?_⟩
    · rcases h1 : inp.trackRoot with _ | root <;> rcases h2 : inp.rootTracker with _ | m <;>
        simp [blueprints_transfer_components, h0, h1, h2]
    · rcases h1 : inp.trackRoot with _ | root <;> rcases h2 : inp.rootTracker with _ | m <;>
        simp [blueprints_transfer_components, h0, h1, h2, hroot]
    · rcases h1 : inp.trackRoot with _ | root <;> rcases h2 : inp.rootTracker with _ | m <;>
        simp [blueprints_transfer_components, h0, h1, h2, hroot]
  · exact findBlueprintRootEntity_eq_find inp.children inp.originalChildren

/-- C10 witness for `transfer_placeholder_fallthrough_when_no_new_child`. -/
theorem transfer_placeholder_fallthrough_when_no_new_child_witness :
    ((∀ c ∈ [Entity.mk 4], c ∈ [Entity.mk 4, Entity.mk 5]) →
      (blueprints_transfer_components
        { original := ⟨1⟩, children := [⟨4⟩], originalChildren := [⟨4⟩, ⟨5⟩],
          trackRoot := none, rootTracker := none,
          childrenOf := fun _ => [] }).skippedNoChildren = false ∧
      findBlueprintRootEntity [⟨4⟩] [⟨4⟩, ⟨5⟩] = Entity.PLACEHOLDER ∧
      TransferCommand.copyComponents Entity.PLACEHOLDER ⟨1⟩ ∈
        (blueprints_transfer_components
          { original := ⟨1⟩, children := [⟨4⟩], originalChildren := [⟨4⟩, ⟨5⟩],
            trackRoot := none, rootTracker := none,
            childrenOf := fun _ => [] }).commands ∧
      TransferCommand.despawnRecursive Entity.PLACEHOLDER ∈
        (blueprints_transfer_components
          { original := ⟨1⟩, children := [⟨4⟩], originalChildren := [⟨4⟩, ⟨5⟩],
            trackRoot := none, rootTracker := none,
            childrenOf := fun _ => [] }).commands) ∧
    findBlueprintRootEntity [⟨4⟩] [⟨4⟩, ⟨5⟩]
      = (([Entity.mk 4].find?
            (fun c => !(List.contains [Entity.mk 4, Entity.mk 5] c))).getD
          Entity.PLACEHOLDER) :=
  transfer_placeholder_fallthrough_when_no_new_child
    { original := ⟨1⟩, children := [⟨4⟩], originalChildren := [⟨4⟩, ⟨5⟩],
      trackRoot := none, rootTracker := none, childrenOf := fun _ => [] }
    (by simp)

/-- C4 counterexample: the tracker mutation of
`blueprints_transfer_components` (`entry(original).or_insert(true)`
followed by `insert(original, true)`) inserts a **new** key when the
processed instance is absent from the referenced root's map: starting
from the map `{1 ↦ false}` and processing instance `2`, the updated map
gains the key `2` -- the key set grew, contradicting the claim that the
component-transfer step never inserts a new key. -/
theorem transfer_inserts_unknown_key_into_tracker :
    (blueprints_transfer_components
      { original := ⟨2⟩, children := [⟨7⟩], originalChildren := [],
        trackRoot := some ⟨5⟩, rootTracker := some [(⟨1⟩, false)],
        childrenOf := fun _ => [] }).updatedRootTracker
      = some [(⟨1⟩, false), (⟨2⟩, true)] ∧
    Entity.mk 2 ∈ trackerKeys [(⟨1⟩, false), (⟨2⟩, true)] ∧
    Entity.mk 2 ∉ trackerKeys [(⟨1⟩, false)] := by
  refine ⟨rfl, by decide, by decide⟩

/-- C4 amended: a `SubBlueprintsSpawnTracker` created by
`blueprints_scenes_spawned` has exactly the discovered sub-blueprint
instances as keys; the later mutation by `blueprints_transfer_components`
sets the processed instance's entry to `true` and leaves every other
entry unchanged, and it keeps the key set fixed **when the instance's key
is already present** -- but when the key is absent it is inserted (with
value `true`), so the key set can grow by the processed instance's own
key. -/
theorem tracker_keys_fixed_only_when_instance_tracked (discovered : List Entity)
    (m : TrackerMap) (k : Entity) :
    (discovered ≠ [] →
      (blueprints_scenes_spawned discovered).insertedTracker
        = some (discovered.map (fun child => (child, false))) ∧
      trackerKeys (discovered.map (fun child => (child, false))) = discovered) ∧
    trackerLookup (markSubBlueprintSpawned m k) k = some true ∧
    (∀ k', k' ≠ k →
      trackerLookup (markSubBlueprintSpawned m k) k' = trackerLookup m k') ∧
    (trackerContains m k = true →
      trackerKeys (markSubBlueprintSpawned m k) = trackerKeys m) ∧
    (trackerContains m k = false →
      trackerKeys (markSubBlueprintSpawned m k) = trackerKeys m ++ [k]) := by
  refine ⟨?_, trackerLookup_trackerSet_self m k true, ?_, ?_, ?_⟩
  · intro h
    have hlen : 0 < discovered.length := List.length_pos.mpr h
    constructor
    · simp [blueprints_scenes_spawned, hlen]
    · have hid : (Prod.fst ∘ fun child : Entity => (child, false)) = id := rfl
      rw [trackerKeys, List.map_map, hid, List.map_id]
  · intro k' hk'
    exact trackerLookup_trackerSet_ne m k k' true hk'
  · intro h
    rw [markSubBlueprintSpawned, trackerKeys_trackerSet, if_pos h]
  · intro h
    rw [markSubBlueprintSpawned, trackerKeys_trackerSet, if_neg (by simp [h])]

/-- C4 witness for `tracker_keys_fixed_only_when_instance_tracked`. -/
theorem tracker_keys_fixed_only_when_instance_tracked_witness :
    (([Entity.mk 9] : List Entity) ≠ [] →
      (blueprints_scenes_spawned [⟨9⟩]).insertedTracker
        = some ([Entity.mk 9].map (fun child => (child, false))) ∧
      trackerKeys ([Entity.mk 9].map (fun child => (child, false))) = [⟨9⟩]) ∧
    trackerLookup (markSubBlueprintSpawned [(⟨1⟩, false)] ⟨1⟩) ⟨1⟩ = some true ∧
    (∀ k', k' ≠ Entity.mk 1 →
      trackerLookup (markSubBlueprintSpawned [(⟨1⟩, false)] ⟨1⟩) k'
        = trackerLookup [(⟨1⟩, false)] k') ∧
    (trackerContains [(⟨1⟩, false)] ⟨1⟩ = true →
      trackerKeys (markSubBlueprintSpawned [(⟨1⟩, false)] ⟨1⟩)
        = trackerKeys [(⟨1⟩, false)]) ∧
    (trackerContains [(⟨1⟩, false)] ⟨1⟩ = false →
      trackerKeys (markSubBlueprintSpawned [(⟨1⟩, false)] ⟨1⟩)
        = trackerKeys [(⟨1⟩, false)] ++ [⟨1⟩]) :=
  tracker_keys_fixed_only_when_instance_tracked [⟨9⟩] [(⟨1⟩, false)] ⟨1⟩

/-- C1: when `blueprints_transfer_components` processes an instance that
carries a `SpawnTrackRoot` whose root owns a tracker in which the
instance's entry is currently `false`, the entry is set to `true`, and the
root is tagged `BlueprintChildrenReady` exactly when every **other** entry
of the map was already `true` -- flipping the last remaining `false` entry
is necessary and sufficient for the root's transition. -/
theorem transfer_tags_root_children_ready_iff_tree_complete (inp : TransferInput)
    (root : Entity) (m : TrackerMap)
    (hroot : inp.trackRoot = some root) (hm : inp.rootTracker = some m)
    (hch : inp.children ≠ [])
    (hfalse : trackerLookup m inp.original = some false) :
    (blueprints_transfer_components inp).updatedRootTracker
      = some (markSubBlueprintSpawned m inp.original) ∧
    trackerLookup (markSubBlueprintSpawned m inp.original) inp.original = some true ∧
    (TransferCommand.insertChildrenReady root ∈
        (blueprints_transfer_components inp).commands
      ↔ ∀ p ∈ m, p.1 ≠ inp.original → p.2 = true) := by
  have h0 : ¬(inp.children.length = 0) := by
    simpa [List.length_eq_zero] using hch
  refine ⟨?_, trackerLookup_trackerSet_self m inp.original true, ?_⟩
  · simp [blueprints_transfer_components, h0, hroot, hm]
  · by_cases hall : trackerAllTrue (markSubBlueprintSpawned m inp.original) = true
    · have hforall := (trackerAllTrue_markSubBlueprintSpawned m inp.original).mp hall
      simp [blueprints_transfer_components, h0, hroot, hm, hall, hforall]
      intro a hma
      by_contra hne
      exact absurd (hforall (a, false) hma hne) (by simp)
    · have hnforall : ¬(∀ p ∈ m, p.1 ≠ inp.original → p.2 = true) := fun hc =>
        hall ((trackerAllTrue_markSubBlueprintSpawned m inp.original).mpr hc)
      simp [blueprints_transfer_components, h0, hroot, hm, hall, hnforall]
      push_neg at hnforall
      obtain ⟨p, hp, hne, hp2⟩ := hnforall
      have hfalse2 : p.2 = false := by
        cases h2 : p.2
        · rfl
        · exact absurd h2 hp2
      refine ⟨p.1, ?_, hne⟩
      have : (p.1, false) = p := by
        rw [← hfalse2]
      rw [this]
      exact hp

/-- C1 witness for `transfer_tags_root_children_ready_iff_tree_complete`. -/
theorem transfer_tags_root_children_ready_iff_tree_complete_witness :
    trackerLookup [(Entity.mk 2, false)] ⟨2⟩ = some false ∧
    ((blueprints_transfer_components
        { original := ⟨2⟩, children := [⟨7⟩], originalChildren := [],
          trackRoot := some ⟨5⟩, rootTracker := some [(⟨2⟩, false)],
          childrenOf := fun _ => [] }).updatedRootTracker
      = some (markSubBlueprintSpawned [(⟨2⟩, false)] ⟨2⟩) ∧
    trackerLookup (markSubBlueprintSpawned [(⟨2⟩, false)] ⟨2⟩) ⟨2⟩ = some true ∧
    (TransferCommand.insertChildrenReady ⟨5⟩ ∈
        (blueprints_transfer_components
          { original := ⟨2⟩, children := [⟨7⟩], originalChildren := [],
            trackRoot := some ⟨5⟩, rootTracker := some [(⟨2⟩, false)],
            childrenOf := fun _ => [] }).commands
      ↔ ∀ p ∈ ([(⟨2⟩, false)] : TrackerMap), p.1 ≠ Entity.mk 2 → p.2 = true)) :=
  ⟨by decide,
    transfer_tags_root_children_ready_iff_tree_complete
      { original := ⟨2⟩, children := [⟨7⟩], originalChildren := [],
        trackRoot := some ⟨5⟩, rootTracker := some [(⟨2⟩, false)],
        childrenOf := fun _ => [] }
      ⟨5⟩ [(⟨2⟩, false)] rfl rfl (by simp) (by decide)⟩

/-- C2: for an instance in `AssetsLoading` with a non-empty tracker, after
a run of `blueprints_check_assets_loading`: an entry is resolved iff it is
fully loaded or its load state is `Failed`; `progress` equals
`resolved_count / n`; under a monotone asset server (entries resolved at
one tick stay resolved), `progress` is non-decreasing across successive
ticks; `progress = 1` exactly when every entry is resolved; `all_loaded`
is set exactly when `progress = 1`, at which point the instance gains
`BlueprintAssetsLoaded` and loses `BlueprintAssetsNotLoaded`. -/
theorem check_assets_progress_monotone_and_complete
    (server1 server2 : AssetServerView) (s : BlueprintAssetsLoadState)
    (hne : s.asset_infos ≠ [])
    (hal : s.all_loaded = false)
    (hmono : ∀ t ∈ s.asset_infos,
      trackerResolved server1 t = true → trackerResolved server2 t = true) :
    (∀ t ∈ s.asset_infos,
      (trackerResolved server1 t = true ↔
        (server1.isLoadedWithDependencies t.id = true ∨
          server1.loadState t.id = LoadState.failed))) ∧
    (blueprints_check_assets_loading server1 s).state.progress
      = ((s.asset_infos.countP (fun t => trackerResolved server1 t) : ℚ)
          / (s.asset_infos.length : ℚ)) ∧
    (blueprints_check_assets_loading server1 s).state.progress
      ≤ (blueprints_check_assets_loading server2
          (blueprints_check_assets_loading server1 s).state).state.progress ∧
    ((blueprints_check_assets_loading server1 s).state.progress = 1 ↔
      ∀ t ∈ s.asset_infos, trackerResolved server1 t = true) ∧
    ((blueprints_check_assets_loading server1 s).state.all_loaded = true ↔
      (blueprints_check_assets_loading server1 s).state.progress = 1) ∧
    ((blueprints_check_assets_loading server1 s).insertedBlueprintAssetsLoaded = true ↔
      (blueprints_check_assets_loading server1 s).state.progress = 1) ∧
    (blueprints_check_assets_loading server1 s).removedBlueprintAssetsNotLoaded
      = (blueprints_check_assets_loading server1 s).insertedBlueprintAssetsLoaded := by
  have hn : 0 < s.asset_infos.length := List.length_pos.mpr hne
  have hnQ : (0 : ℚ) < (s.asset_infos.length : ℚ) := by exact_mod_cast hn
  have hprog1 : (blueprints_check_assets_loading server1 s).state.progress
      = ((s.asset_infos.countP (fun t => trackerResolved server1 t) : ℚ)
          / (s.asset_infos.length : ℚ)) := rfl
  have hinfos : (blueprints_check_assets_loading server1 s).state.asset_infos
      = s.asset_infos.map (fun t => { t with loaded := trackerResolved server1 t }) := rfl
  have hcount2 : ((blueprints_check_assets_loading server1 s).state.asset_infos).countP
        (fun t => trackerResolved server2 t)
      = s.asset_infos.countP (fun t => trackerResolved server2 t) := by
    rw [hinfos, List.countP_map]
    rfl
  have hlen2 : ((blueprints_check_assets_loading server1 s).state.asset_infos).length
      = s.asset_infos.length := by rw [hinfos, List.length_map]
  have hprog2 : (blueprints_check_assets_loading server2
        (blueprints_check_assets_loading server1 s).state).state.progress
      = ((s.asset_infos.countP (fun t => trackerResolved server2 t) : ℚ)
          / (s.asset_infos.length : ℚ)) := by
    rw [show (blueprints_check_assets_loading server2
          (blueprints_check_assets_loading server1 s).state).state.progress
        = ((((blueprints_check_assets_loading server1 s).state.asset_infos).countP
              (fun t => trackerResolved server2 t) : ℚ)
            / (((blueprints_check_assets_loading server1 s).state.asset_infos).length : ℚ))
      from rfl, hcount2, hlen2]
  have hcount_le : s.asset_infos.countP (fun t => trackerResolved server1 t)
      ≤ s.asset_infos.countP (fun t => trackerResolved server2 t) :=
    List.countP_mono_left (by intro x hx h; exact hmono x hx h)
  have hp1 : (blueprints_check_assets_loading server1 s).state.progress = 1 ↔
      ∀ t ∈ s.asset_infos, trackerResolved server1 t = true := by
    rw [hprog1, div_eq_one_iff_eq hnQ.ne', Nat.cast_inj]
    exact List.countP_eq_length
  have hins : (blueprints_check_assets_loading server1 s).insertedBlueprintAssetsLoaded
      = s.asset_infos.all (fun t => trackerResolved server1 t) := rfl
  have hall_iff : s.asset_infos.all (fun t => trackerResolved server1 t) = true ↔
      ∀ t ∈ s.asset_infos, trackerResolved server1 t = true := List.all_eq_true
  have hstate_all : (blueprints_check_assets_loading server1 s).state.all_loaded
      = s.asset_infos.all (fun t => trackerResolved server1 t) := by
    show (if s.asset_infos.all (fun t => trackerResolved server1 t) = true
        then true else s.all_loaded) = _
    by_cases hA : s.asset_infos.all (fun t => trackerResolved server1 t) = true
    · rw [if_pos hA, hA]
    · rw [if_neg hA, hal]
      cases h : s.asset_infos.all (fun t => trackerResolved server1 t)
      · rfl
      · exact absurd h hA
  refine ⟨?_, hprog1, ?_, hp1, ?_, ?_, rfl⟩
  · intro t ht
    unfold trackerResolved
    cases hld : server1.isLoadedWithDependencies t.id <;>
      cases hls : server1.loadState t.id <;> simp [hld, hls]
  · rw [hprog1, hprog2]
    exact div_le_div_of_nonneg_right (by exact_mod_cast hcount_le) hnQ.le
  · rw [hstate_all, hall_iff, hp1]
  · rw [hins, hall_iff, hp1]

/-- C2 witness for `check_assets_progress_monotone_and_complete`. -/
theorem check_assets_progress_monotone_and_complete_witness :
    (∀ t ∈ ([⟨"a", "p", ⟨1⟩, false⟩] : List AssetLoadTracker),
      (trackerResolved ⟨fun _ => true, fun _ => LoadState.loaded⟩ t = true ↔
        ((fun _ => true : AssetId → Bool) t.id = true ∨
          (fun _ => LoadState.loaded : AssetId → LoadState) t.id = LoadState.failed))) ∧
    (blueprints_check_assets_loading ⟨fun _ => true, fun _ => LoadState.loaded⟩
        ⟨false, [⟨"a", "p", ⟨1⟩, false⟩], 0⟩).state.progress
      = ((([⟨"a", "p", ⟨1⟩, false⟩] : List AssetLoadTracker).countP
            (fun t => trackerResolved ⟨fun _ => true, fun _ => LoadState.loaded⟩ t) : ℚ)
          / (([⟨"a", "p", ⟨1⟩, false⟩] : List AssetLoadTracker).length : ℚ)) ∧
    (blueprints_check_assets_loading ⟨fun _ => true, fun _ => LoadState.loaded⟩
        ⟨false, [⟨"a", "p", ⟨1⟩, false⟩], 0⟩).state.progress
      ≤ (blueprints_check_assets_loading ⟨fun _ => true, fun _ => LoadState.loaded⟩
          (blueprints_check_assets_loading ⟨fun _ => true, fun _ => LoadState.loaded⟩
            ⟨false, [⟨"a", "p", ⟨1⟩, false⟩], 0⟩).state).state.progress ∧
    ((blueprints_check_assets_loading ⟨fun _ => true, fun _ => LoadState.loaded⟩
        ⟨false, [⟨"a", "p", ⟨1⟩, false⟩], 0⟩).state.progress = 1 ↔
      ∀ t ∈ ([⟨"a", "p", ⟨1⟩, false⟩] : List AssetLoadTracker),
        trackerResolved ⟨fun _ => true, fun _ => LoadState.loaded⟩ t = true) ∧
    ((blueprints_check_assets_loading ⟨fun _ => true, fun _ => LoadState.loaded⟩
        ⟨false, [⟨"a", "p", ⟨1⟩, false⟩], 0⟩).state.all_loaded = true ↔
      (blueprints_check_assets_loading ⟨fun _ => true, fun _ => LoadState.loaded⟩
        ⟨false, [⟨"a", "p", ⟨1⟩, false⟩], 0⟩).state.progress = 1) ∧
    ((blueprints_check_assets_loading ⟨fun _ => true, fun _ => LoadState.loaded⟩
        ⟨false, [⟨"a", "p", ⟨1⟩, false⟩], 0⟩).insertedBlueprintAssetsLoaded = true ↔
      (blueprints_check_assets_loading ⟨fun _ => true, fun _ => LoadState.loaded⟩
        ⟨false, [⟨"a", "p", ⟨1⟩, false⟩], 0⟩).state.progress = 1) ∧
    (blueprints_check_assets_loading ⟨fun _ => true, fun _ => LoadState.loaded⟩
        ⟨false, [⟨"a", "p", ⟨1⟩, false⟩], 0⟩).removedBlueprintAssetsNotLoaded
      = (blueprints_check_assets_loading ⟨fun _ => true, fun _ => LoadState.loaded⟩
        ⟨false, [⟨"a", "p", ⟨1⟩, false⟩], 0⟩).insertedBlueprintAssetsLoaded :=
  check_assets_progress_monotone_and_complete
    ⟨fun _ => true, fun _ => LoadState.loaded⟩
    ⟨fun _ => true, fun _ => LoadState.loaded⟩
    ⟨false, [⟨"a", "p", ⟨1⟩, false⟩], 0⟩
    (by simp) rfl (fun t _ h => h)
